import Mathlib

/-!
Verification of the environment-detection and unified tool-routing core of the
hathor-playground backend, shallowly embedded from
`backend/api/unified_tools.py`, `backend/api/ai_tools.py` and
`backend/api/environment_detector.py`.

Python `dict[str, str]` values are modelled as insertion-ordered association
lists; Python string operations are modelled on `String` / `List Char`
(`str.lower`, `\s`, `\w` are modelled at ASCII fidelity, which covers every
character the embedded code and the claims exercise).  The two genuinely
external capabilities reached from this code - the CPython parser invoked via
`compile(code, path, "exec")` and the `re` regular-expression engine - are
passed in as explicit oracle arguments (`pyParse`, `reC`), exactly where the
source calls out to them.
-/

/-- Characters stripped by Python `str.strip()` with no arguments, and matched
by the regex class `\s` (ASCII range). -/
def pyIsSpace (c : Char) : Bool :=
  c = ' ' || c = '\t' || c = '\n' || c = '\r' || c = '\x0b' || c = '\x0c'

/-- Python `str.strip()`: remove leading and trailing whitespace. -/
def pyStrip (s : String) : String :=
  ⟨((s.data.dropWhile pyIsSpace).reverse.dropWhile pyIsSpace).reverse⟩

/-- Python `str.startswith(pre)`. -/
def pyStartsWith (s pre : String) : Bool :=
  pre.data.isPrefixOf s.data

/-- Python `str.endswith(post)`. -/
def pyEndsWith (s post : String) : Bool :=
  post.data.isSuffixOf s.data

/-- Substring occurrence on character lists: `hasSub pat l` is true iff `pat`
occurs contiguously inside `l` (the semantics of Python `pat in l`). -/
def hasSub (pat : List Char) : List Char → Bool
  | [] => pat.isEmpty
  | c :: rest => pat.isPrefixOf (c :: rest) || hasSub pat rest

/-- Python `pat in s` (substring containment). -/
def strContains (s pat : String) : Bool :=
  hasSub pat.data s.data

/-- Python `str.lower()` (ASCII model, as in `Char.toLower`). -/
def pyLower (s : String) : String :=
  ⟨s.data.map Char.toLower⟩

/-- Split a character list at every occurrence of `sep`; always returns a
nonempty list of chunks (the semantics of Python `str.split(sep)` for a
one-character separator). -/
def splitChar (sep : Char) : List Char → List (List Char)
  | [] => [[]]
  | c :: rest =>
    match splitChar sep rest with
    | [] => [[]]
    | h :: t => if c = sep then [] :: h :: t else (c :: h) :: t

/-- Python `s.split(sep)` for a one-character separator. -/
def pySplit (sep : Char) (s : String) : List String :=
  (splitChar sep s.data).map (fun l => ⟨l⟩)

/-- Python `path.split("/")[-1]` (the list returned by `split` is never
empty, so the `[-1]` index is total). -/
def lastComponent (path : String) : String :=
  (pySplit '/' path).getLastD ""

/-- Python `sep.join(l)`. -/
def pyJoin (sep : String) : List String → String
  | [] => ""
  | [s] => s
  | s :: rest => s ++ sep ++ pyJoin sep rest

/-- Python `repr` of a `str` that contains no quote or escape characters
(every path the embedded code formats this way is of that shape). -/
def pyStrRepr (s : String) : String :=
  "\x27" ++ s ++ "\x27"

/-- Python `f"{l}"` for a list of plain strings: `['a', 'b']`. -/
def pyListRepr (l : List String) : String :=
  "[" ++ pyJoin ", " (l.map pyStrRepr) ++ "]"

/-- First value stored under key `k` in an insertion-ordered Python dict
(`d[k]` / `d.get(k)`; keys are unique, lookup returns the unique value). -/
def dictGet (d : List (String × String)) (k : String) : Option String :=
  match d with
  | [] => none
  | (k0, v) :: rest => if k0 = k then some v else dictGet rest k

/-- Python `k in d`. -/
def dictMem (d : List (String × String)) (k : String) : Bool :=
  (dictGet d k).isSome

/-- Python `d[k] = v`: replace in place when the key exists, append at the
end otherwise (insertion-order semantics of Python dicts). -/
def dictSet (d : List (String × String)) (k v : String) : List (String × String) :=
  match d with
  | [] => [(k, v)]
  | (k0, v0) :: rest => if k0 = k then (k0, v) :: rest else (k0, v0) :: dictSet rest k v

/-- Python `list(d.keys())`. -/
def dictKeys (d : List (String × String)) : List String :=
  d.map Prod.fst

/-- `ai_tools.py` / `unified_tools.py` path normalization: prepend `/` when
missing (`if not path.startswith("/"): path = "/" + path`). -/
def normalizePath (p : String) : String :=
  if pyStartsWith p "/" then p else "/" ++ p

/- The marker characters used by the message strings.  `unified_tools.py` is
stored with mojibake markers (each emoji appears as a short sequence of
Latin-1/punctuation codepoints); `ai_tools.py` uses the plain emoji.  The
constants below reproduce the exact codepoint sequences found in each file. -/

/-- The cross marker of `unified_tools.py` (bytes of `U+201A U+00F9 U+00E5`). -/
def uCross : String := "‚ùå"

/-- The warning marker of `unified_tools.py`. -/
def uWarn : String := "‚ö†Ô∏è"

/-- The check marker of `unified_tools.py`. -/
def uCheck : String := "‚úÖ"

/-- The magnifier marker of `unified_tools.py`. -/
def uMag : String := "üîç"

/-- The cross marker of `ai_tools.py` (`U+274C`). -/
def aCross : String := "❌"

/-- The warning marker of `ai_tools.py` (`U+26A0 U+FE0F`). -/
def aWarn : String := "⚠️"

/-- The check marker of `ai_tools.py` (`U+2705`). -/
def aCheck : String := "✅"

-- ===== FileTools (backend/api/ai_tools.py) =====

/-- `ai_tools.FileInfo` (pydantic model; the fallback listing of
`unified_tools.list_files` builds plain dicts without a `size` key, modelled
as `size = none`). -/
structure FileInfo where
  path : String
  name : String
  type : String
  size : Option Nat
  deriving DecidableEq, Repr

/-- `ai_tools.GrepMatch`.  The source field `match` is a Lean keyword and is
rendered here as `matched`. -/
structure GrepMatch where
  file : String
  line_number : Nat
  line : String
  matched : String
  deriving DecidableEq, Repr

/-- `ai_tools.FileTools`: the virtual file store (`self.files`); the
`project_id` used only by remote sandbox calls is out of scope. -/
structure FileTools where
  files : List (String × String)
  deriving DecidableEq, Repr

/-- Python `str` lexicographic `<` (codepoint order). -/
def strLt (a b : String) : Bool :=
  decide (a < b)

/-- `le` relation reproducing Python stable sort by `<` on strings. -/
def strLe (a b : String) : Bool :=
  !(strLt b a)

/-- sort key of `FileTools.list_files`: `(f.type != "directory", f.name)`. -/
def fiKeyDir (f : FileInfo) : Bool :=
  f.type != "directory"

/-- lexicographic `<` on the `(type != "directory", name)` sort key. -/
def fiLt (f g : FileInfo) : Bool :=
  (!(fiKeyDir f) && fiKeyDir g) || (fiKeyDir f == fiKeyDir g && strLt f.name g.name)

/-- `le` relation reproducing Python stable `list.sort(key=...)`. -/
def fiLe (f g : FileInfo) : Bool :=
  !(fiLt g f)

/-- Python slice `s[n:]` (by codepoints). -/
def pyDrop (s : String) (n : Nat) : String :=
  ⟨s.data.drop n⟩

/-- `FileTools.list_files`: immediate files of the directory (with sizes) and
deduplicated first-segment subdirectories, sorted directories-first. -/
def FileTools.list_files (ft : FileTools) (path : String) : List FileInfo :=
  let path := normalizePath path
  let path := if !(pyEndsWith path "/") && path ≠ "/" then path ++ "/" else path
  let hits := ft.files.filter
    (fun fc => pyStartsWith fc.1 path || (path = "/" && pyStartsWith fc.1 "/"))
  let rels := hits.map (fun fc => (fc.1, if path ≠ "/" then pyDrop fc.1 path.length else pyDrop fc.1 1, fc.2))
  let files_in_dir := (rels.filter (fun r => !(strContains r.2.1 "/"))).map
    (fun r => FileInfo.mk r.1 r.2.1 "file" (some r.2.2.length))
  let subdirs := ((rels.filter (fun r => strContains r.2.1 "/")).map
    (fun r => (pySplit '/' r.2.1).headD "")).eraseDups
  let dir_entries := (subdirs.mergeSort strLe).map
    (fun d => FileInfo.mk (path ++ d) d "directory" none)
  (files_in_dir ++ dir_entries).mergeSort fiLe

/-- The fallback warning of `FileTools.read_file` when the file was found at
another path by case-insensitive basename match. -/
def ftFoundWarning (file_path path : String) : String :=
  aWarn ++ " NOTE: File found at \x27" ++ file_path ++ "\x27 (you searched for \x27" ++ path ++ "\x27)\n" ++
  "When modifying this file, use: write_file(\x27" ++ file_path ++ "\x27, content)\n" ++
  "DO NOT use: write_file(\x27" ++ path ++ "\x27, content)\n\n"

/-- The `FileNotFoundError` message of `FileTools.read_file`. -/
def ftNotFoundMsg (path : String) (keys : List String) : String :=
  "File not found: " ++ path ++ ". Available files: " ++ pyListRepr keys

/-- `FileTools.read_file`: exact lookup, then case-insensitive basename
fallback returning the content behind a warning, else a raised
`FileNotFoundError` (modelled as `Except.error`) enumerating all paths. -/
def FileTools.read_file (ft : FileTools) (path : String) : Except String String :=
  let path := normalizePath path
  match dictGet ft.files path with
  | some content => .ok content
  | none =>
    let filename := pyLower (lastComponent path)
    match ft.files.find? (fun fc => pyLower (lastComponent fc.1) = filename) with
    | some fc => .ok (ftFoundWarning fc.1 path ++ fc.2)
    | none => .error (ftNotFoundMsg path (dictKeys ft.files))

/-- The rejection of `FileTools.write_file` for a path outside `/dapp/`. -/
def ftInvalidPathMsg (path : String) : String :=
  aCross ++ " INVALID PATH: \x27" ++ path ++ "\x27\n\n" ++
  "All dApp files MUST start with \x27/dapp/\x27\n\n" ++
  "Examples:\n" ++
  "  " ++ aCheck ++ " CORRECT: /dapp/components/IncrementCounter.tsx\n" ++
  "  " ++ aCheck ++ " CORRECT: /dapp/app/page.tsx\n" ++
  "  " ++ aCross ++ " WRONG: /IncrementCounter.tsx\n" ++
  "  " ++ aCross ++ " WRONG: /components/IncrementCounter.tsx\n\n" ++
  "Please use the correct path starting with /dapp/"

/-- `FileTools.write_file`: validate the `/dapp/` prefix (reject with no
mutation otherwise), then create or update. -/
def FileTools.write_file (ft : FileTools) (path content : String) : FileTools × String :=
  let path := normalizePath path
  if !(pyStartsWith path "/dapp/") then
    (ft, ftInvalidPathMsg path)
  else
    let action := if dictMem ft.files path then "Updated" else "Created"
    (⟨dictSet ft.files path content⟩,
      action ++ " " ++ path ++ " (" ++ toString content.length ++ " chars)")

/-- One `grep` line test: the compiled case-insensitive regex when
`re.compile` succeeded (oracle `reC = some f`), else the literal
case-insensitive fallback. -/
def grepLineMatch (reC : Option (String → Bool)) (pattern line : String) : Bool :=
  match reC with
  | some f => f line
  | none => strContains (pyLower line) (pyLower pattern)

/-- The matches `grep` collects from one file, in line order. -/
def grepFileMatches (reC : Option (String → Bool)) (pattern fp content : String) :
    List GrepMatch :=
  (pySplit '\n' content).enum.filterMap
    (fun ie => if grepLineMatch reC pattern ie.2 then
        some (GrepMatch.mk fp (ie.1 + 1) (pyStrip ie.2) pattern)
      else none)

/-- Append-concatenation of the per-file match lists, mirroring the nested
`for` loops of the source. -/
def concatMatches (f : String → List GrepMatch) : List String → List GrepMatch
  | [] => []
  | fp :: rest => f fp ++ concatMatches f rest

/-- `FileTools.grep`: scope is the single named file if stored, otherwise
every file whose path has the argument as a prefix (root `/` matches all);
results are capped at 100.  The `re` engine is the oracle `reC`: `some f`
models a successful `re.compile(pattern, re.IGNORECASE)` whose per-line
`search` is `f`; `none` models `re.error` and selects the literal fallback. -/
def FileTools.grep (ft : FileTools) (reC : Option (String → Bool))
    (pattern path : String) : List GrepMatch :=
  let path := normalizePath path
  let files_to_search :=
    if dictMem ft.files path then [path]
    else (dictKeys ft.files).filter (fun fp => pyStartsWith fp path || path == "/")
  (concatMatches
    (fun fp => grepFileMatches reC pattern fp ((dictGet ft.files fp).getD "")) files_to_search).take 100

-- ===== UnifiedTools (backend/api/unified_tools.py) =====

/-- `unified_tools.UnifiedTools`: the router state.  `file_tools` is
constructed from a copy of `project_files` iff dApp tools are enabled. -/
structure UnifiedTools where
  project_files : List (String × String)
  enable_blueprint_tools : Bool
  enable_dapp_tools : Bool
  file_tools : Option FileTools
  deriving DecidableEq, Repr

/-- `UnifiedTools.__init__`. -/
def UnifiedTools.init (project_files : List (String × String))
    (enable_blueprint_tools enable_dapp_tools : Bool) : UnifiedTools :=
  ⟨project_files, enable_blueprint_tools, enable_dapp_tools,
    if enable_dapp_tools then some ⟨project_files⟩ else none⟩

/-- `UnifiedTools.read_file`: exact lookup in `project_files`, then a
case-sensitive fallback to the first stored path that ends with the requested
basename, else a not-found message. -/
def UnifiedTools.read_file (ut : UnifiedTools) (path : String) : String :=
  let path := normalizePath path
  match dictGet ut.project_files path with
  | some content => content
  | none =>
    let filename := lastComponent path
    match ut.project_files.find? (fun fc => pyEndsWith fc.1 filename) with
    | some fc => uWarn ++ " Found at " ++ fc.1 ++ ":\n\n" ++ fc.2
    | none => uCross ++ " File not found: " ++ path

/-- The rejection of `UnifiedTools.write_file` for a path outside every
configured root. -/
def utInvalidPathMsg (path : String) : String :=
  uCross ++ " Invalid path: " ++ path ++
  "\nFiles must be in /blueprints/, /contracts/, /tests/, or /dapp/ directories"

/-- `UnifiedTools.write_file`.  `/dapp/` paths are delegated to the
`FileTools` copy; blueprint-root paths are written to `project_files` (and
mirrored into `file_tools.files` when present); all other paths are rejected
with no mutation.  The source's `if`/`elif` chain can fall off the end
(returning Python `None`) in the unreachable configuration where dApp tools
are enabled but no `FileTools` exists; the result is therefore an
`Option String`. -/
def UnifiedTools.write_file (ut : UnifiedTools) (path content : String) :
    UnifiedTools × Option String :=
  let path := normalizePath path
  if pyStartsWith path "/dapp/" then
    if !ut.enable_dapp_tools then
      (ut, some (uCross ++ " dApp tools are not enabled for this project"))
    else
      match ut.file_tools with
      | some ft =>
        let r := ft.write_file path content
        ({ ut with file_tools := some r.1 }, some r.2)
      | none => (ut, none)
  else if pyStartsWith path "/blueprints/" || pyStartsWith path "/contracts/" ||
      pyStartsWith path "/tests/" then
    if !ut.enable_blueprint_tools then
      (ut, some (uCross ++ " Blueprint tools are not enabled for this project"))
    else
      let action := if dictMem ut.project_files path then "Updated" else "Created"
      ({ ut with
          project_files := dictSet ut.project_files path content,
          file_tools := match ut.file_tools with
            | some ft => some ⟨dictSet ft.files path content⟩
            | none => none },
        some (uCheck ++ " " ++ action ++ " " ++ path))
  else
    (ut, some (utInvalidPathMsg path))

/-- The flat fallback loop of `UnifiedTools.list_files` (dApp tools
disabled): one `type = "file"` entry per stored path that string-prefix
matches the argument, in store order, with no size. -/
def utFlatList (keys : List String) (path : String) : List FileInfo :=
  match keys with
  | [] => []
  | fp :: rest =>
    if pyStartsWith fp path then
      FileInfo.mk fp (lastComponent fp) "file" none :: utFlatList rest path
    else
      utFlatList rest path

/-- `UnifiedTools.list_files`: delegate to `FileTools` when available, else
the flat fallback listing. -/
def UnifiedTools.list_files (ut : UnifiedTools) (path : String) : List FileInfo :=
  match ut.file_tools with
  | some ft => ft.list_files path
  | none => utFlatList (dictKeys ut.project_files) path

-- ===== blueprint validation (unified_tools.py, CONTAINER_PATTERNS and
-- validate_blueprint / compile_blueprint) =====

/-- The regex class `\w` (ASCII range). -/
def isWordChar (c : Char) : Bool :=
  c.isAlphanum || c = '_'

/-- Close token of the dict pattern `^\s*self\.\w+\s*=\s*\{\}`. -/
def dictClose : List Char := "\x7b\x7d".data

/-- Close token of the list pattern `^\s*self\.\w+\s*=\s*\[\]`. -/
def listClose : List Char := "[]".data

/-- Close token of the set pattern `^\s*self\.\w+\s*=\s*set\(\)`. -/
def setClose : List Char := "set()".data

/-- The part of a container pattern after `self.`: `\w+\s*=\s*` followed by
the close token (the greedy `\w+`/`\s*` runs of the regex never backtrack
here because `\w`, `\s` and `=` are pairwise disjoint). -/
def containerTail (close : List Char) (l : List Char) : Bool :=
  if (l.takeWhile isWordChar).isEmpty then false
  else
    match (l.dropWhile isWordChar).dropWhile pyIsSpace with
    | '=' :: r => close.isPrefixOf (r.dropWhile pyIsSpace)
    | _ => false

/-- `pattern.search(line)` for one `CONTAINER_PATTERNS` entry on a single
line (the `^` anchor restricts the match to the start of the line). -/
def containerMatch (close : List Char) (line : String) : Bool :=
  match line.data.dropWhile pyIsSpace with
  | 's' :: 'e' :: 'l' :: 'f' :: '.' :: rest => containerTail close rest
  | _ => false

/-- Check 7 inner loop: the first non-comment line matched by one container
pattern (`break` stops after the first occurrence per pattern). -/
def firstContainerLine (close : List Char) (code : String) : Option String :=
  (pySplit '\n' code).find?
    (fun line => !(pyStartsWith (pyStrip line) "#") && containerMatch close line)

/-- The critical container-assignment issue text. -/
def containerIssue (line_stripped : String) : String :=
  uCross ++ " CRITICAL: Container field assignment detected: " ++ line_stripped ++
  "\n   Container fields (dict, list, set) are auto-initialized." ++
  "\n   Never write: self.balances = \x7b\x7d" ++
  "\n   Just use: self.balances[key] = value"

/-- Check 7: one issue per container pattern, in `CONTAINER_PATTERNS` order
(dict, list, set). -/
def containerPatternIssues (code : String) : List String :=
  (match firstContainerLine dictClose code with
    | some l => [containerIssue (pyStrip l)]
    | none => []) ++
  (match firstContainerLine listClose code with
    | some l => [containerIssue (pyStrip l)]
    | none => []) ++
  (match firstContainerLine setClose code with
    | some l => [containerIssue (pyStrip l)]
    | none => [])

/-- Checks 2-6 of `validate_blueprint`, in source order. -/
def issuesPre (code : String) : List String :=
  (if !(strContains code "from hathor") && !(strContains code "import hathor") then
    [uWarn ++ " Missing Hathor imports (from hathor.nanocontracts...)"] else []) ++
  (if !(strContains code "class ") then
    [uCross ++ " No class definition found (blueprints must be classes)"]
   else if !(strContains code "Blueprint") then
    [uWarn ++ " Class should inherit from Blueprint"] else []) ++
  (if !(strContains code "__blueprint__") then
    [uCross ++ " Missing __blueprint__ export (required!)"] else []) ++
  (if !(strContains code "@public") && !(strContains code "@view") then
    [uWarn ++ " No @public or @view methods found"] else []) ++
  (if !(strContains code "def initialize") then
    [uWarn ++ " No initialize() method found"] else []) ++
  (if strContains code "def __init__" then
    [uCross ++ " Don\x27t use __init__! Use initialize() instead"] else [])

/-- Check 8 of `validate_blueprint`. -/
def issuesPost (code : String) : List String :=
  if strContains code "@public" && strContains code "ctx.address" then
    [uCross ++ " Don\x27t use ctx.address! Use ctx.vertex.hash instead for caller identity"]
  else []

/-- All soft/hard issues `validate_blueprint` collects after the syntax
check, in source order. -/
def blueprintIssues (code : String) : List String :=
  issuesPre code ++ containerPatternIssues code ++ issuesPost code

/-- The single-line pass confirmation of `validate_blueprint`. -/
def validationPass (file_path : String) : String :=
  uCheck ++ " " ++ file_path ++ " passed validation! Ready for compilation."

/-- The itemized issue report of `validate_blueprint`. -/
def validationReport (file_path : String) (issues : List String) : String :=
  uMag ++ " Validation results for " ++ file_path ++ ":\n\n" ++
  pyJoin "\n" (issues.map (fun i => "  " ++ i)) ++
  "\n\nFix these issues before compiling."

/-- `UnifiedTools.validate_blueprint`.  The CPython parser invoked by
`compile(code, file_path, "exec")` is external to this repository and is
passed as the oracle `pyParse`: `some (lineno, msg)` models a `SyntaxError`,
`none` a successful parse. -/
def UnifiedTools.validate_blueprint (ut : UnifiedTools)
    (pyParse : String → Option (Nat × String)) (file_path : String) : String :=
  if !(pyStartsWith file_path "/blueprints/" || pyStartsWith file_path "/contracts/") then
    uCross ++ " Blueprint files must be in /blueprints/ or /contracts/ directory.\n" ++
    "Got: " ++ file_path ++ "\n" ++
    "Expected: /blueprints/*.py or /contracts/*.py"
  else
    match dictGet ut.project_files file_path with
    | none =>
      uCross ++ " File not found: " ++ file_path ++ "\n" ++
      "Available blueprints: " ++
      (if ((dictKeys ut.project_files).filter
            (fun p => pyStartsWith p "/blueprints/" || pyStartsWith p "/contracts/")).isEmpty
       then "None"
       else pyListRepr ((dictKeys ut.project_files).filter
            (fun p => pyStartsWith p "/blueprints/" || pyStartsWith p "/contracts/")))
    | some code =>
      match pyParse code with
      | some e => uCross ++ " Syntax Error on line " ++ toString e.1 ++ ": " ++ e.2
      | none =>
        if (blueprintIssues code).isEmpty then validationPass file_path
        else validationReport file_path (blueprintIssues code)

/-- The "ready, trigger compilation via the external UI" confirmation of
`compile_blueprint`. -/
def compileReady (file_path : String) : String :=
  uCheck ++ " Blueprint ready for compilation: " ++ file_path ++ "\n\n" ++
  "Validation passed! To compile:\n" ++
  "1. Save your changes\n" ++
  "2. Click the \x27Compile\x27 button in the IDE\n" ++
  "3. View compilation results in the console\n\n" ++
  "Note: Compilation happens in your browser via Pyodide for security."

/-- `UnifiedTools.compile_blueprint`: re-run validation and gate on the hard
failure marker appearing in the validation result. -/
def UnifiedTools.compile_blueprint (ut : UnifiedTools)
    (pyParse : String → Option (Nat × String)) (file_path : String) : String :=
  if strContains (ut.validate_blueprint pyParse file_path) uCross then
    "Cannot compile due to validation errors:\n\n" ++
    ut.validate_blueprint pyParse file_path ++
    "\n\nFix these issues first, then try compiling again."
  else
    compileReady file_path

-- ===== environment detection (backend/api/environment_detector.py) =====

/-- `environment_detector.EnvironmentType`. -/
inductive EnvironmentType where
  | blueprint
  | dapp
  | mixed
  | empty
  deriving DecidableEq, BEq, Repr

/-- `environment_detector.EnvironmentContext` (`confidence` is an exact
rational; every constant the source assigns is exactly representable). -/
structure EnvironmentContext where
  env_type : EnvironmentType
  confidence : ℚ
  blueprint_files : List String
  dapp_files : List String
  reason : String
  deriving DecidableEq, Repr

/-- Tier-1 blueprint paths: under `/blueprints/` or `/contracts/` with the
`.py` suffix. -/
def pathBlueprintFiles (files : List (String × String)) : List String :=
  (files.map Prod.fst).filter
    (fun p => (pyStartsWith p "/blueprints/" || pyStartsWith p "/contracts/") && pyEndsWith p ".py")

/-- Tier-1 dApp paths: under `/dapp/`. -/
def pathDappFiles (files : List (String × String)) : List String :=
  (files.map Prod.fst).filter (fun p => pyStartsWith p "/dapp/")

/-- Tier-2 blueprint content indicators. -/
def blueprintIndicators : List String :=
  ["from hathor.nanocontracts", "import hathor", "@public", "@view",
   "__blueprint__", "Blueprint", "Context"]

/-- Tier-2 dApp content indicators. -/
def dappIndicators : List String :=
  ["next.config", "package.json", "tailwind.config", "tsconfig.json",
   "import React", "export default", "use client", "use server"]

/-- Tier-3 blueprint keywords. -/
def blueprintKeywords : List String :=
  ["blueprint", "contract", "nano contract", "@public", "@view",
   "compile", "hathor", "initialize", "method", "ctx", "context"]

/-- Tier-3 dApp keywords. -/
def dappKeywords : List String :=
  ["dapp", "d-app", "frontend", "next.js", "nextjs", "react",
   "component", "page", "button", "ui", "interface", "style",
   "tailwind", "app router", "bootstrap"]

/-- Tier-2 count of files containing at least one blueprint indicator. -/
def contentBlueprintCount (files : List (String × String)) : Nat :=
  files.countP (fun fc => blueprintIndicators.any (fun ind => strContains fc.2 ind))

/-- Tier-2 count of files containing at least one dApp indicator. -/
def contentDappCount (files : List (String × String)) : Nat :=
  files.countP (fun fc => dappIndicators.any (fun ind => strContains fc.2 ind))

/-- Tier-3 count of blueprint keywords occurring in the lowercased message. -/
def msgBlueprintCount (message_lower : String) : Nat :=
  blueprintKeywords.countP (fun kw => strContains message_lower kw)

/-- Tier-3 count of dApp keywords occurring in the lowercased message. -/
def msgDappCount (message_lower : String) : Nat :=
  dappKeywords.countP (fun kw => strContains message_lower kw)

/-- `environment_detector.detect_environment`: the three-tier cascade in
source order (Tier-1 path counts, the empty-set check, Tier-2 content
indicators, Tier-3 message keywords, 0.50-EMPTY default). -/
def detect_environment (files : List (String × String)) (message : String) :
    EnvironmentContext :=
  if 0 < (pathBlueprintFiles files).length ∧ 0 < (pathDappFiles files).length then
    ⟨.mixed, 0.95, pathBlueprintFiles files, pathDappFiles files,
      "Found " ++ toString (pathBlueprintFiles files).length ++ " blueprint(s) and " ++
      toString (pathDappFiles files).length ++ " dApp file(s)"⟩
  else if 0 < (pathBlueprintFiles files).length then
    ⟨.blueprint, 0.95, pathBlueprintFiles files, [],
      "Found " ++ toString (pathBlueprintFiles files).length ++
      " blueprint file(s) in /blueprints/"⟩
  else if 0 < (pathDappFiles files).length then
    ⟨.dapp, 0.95, [], pathDappFiles files,
      "Found " ++ toString (pathDappFiles files).length ++ " dApp file(s) in /dapp/"⟩
  else if files.isEmpty then
    ⟨.empty, 0.95, [], [], "No files in project"⟩
  else if 0 < contentBlueprintCount files ∧ 0 < contentDappCount files then
    ⟨.mixed, 0.85, files.map Prod.fst, files.map Prod.fst,
      "Found both Hathor and Next.js indicators in file content"⟩
  else if 0 < contentBlueprintCount files then
    ⟨.blueprint, 0.85, files.map Prod.fst, [],
      "Found Hathor indicators in " ++ toString (contentBlueprintCount files) ++ " file(s)"⟩
  else if 0 < contentDappCount files then
    ⟨.dapp, 0.85, [], files.map Prod.fst,
      "Found Next.js indicators in " ++ toString (contentDappCount files) ++ " file(s)"⟩
  else if message ≠ "" ∧ 0 < msgBlueprintCount (pyLower message) ∧
      0 < msgDappCount (pyLower message) then
    ⟨.mixed, 0.70, [], [],
      "Message mentions both blueprint (" ++ toString (msgBlueprintCount (pyLower message)) ++
      ") and dApp (" ++ toString (msgDappCount (pyLower message)) ++ ") keywords"⟩
  else if message ≠ "" ∧ msgDappCount (pyLower message) < msgBlueprintCount (pyLower message) ∧
      0 < msgBlueprintCount (pyLower message) then
    ⟨.blueprint, 0.70, [], [],
      "Message mentions " ++ toString (msgBlueprintCount (pyLower message)) ++
      " blueprint-related keyword(s)"⟩
  else if message ≠ "" ∧ msgBlueprintCount (pyLower message) < msgDappCount (pyLower message) ∧
      0 < msgDappCount (pyLower message) then
    ⟨.dapp, 0.70, [], [],
      "Message mentions " ++ toString (msgDappCount (pyLower message)) ++
      " dApp-related keyword(s)"⟩
  else
    ⟨.empty, 0.50, [], [], "No clear indicators found, empty project"⟩

/-- `environment_detector.should_enable_blueprint_tools`. -/
def should_enable_blueprint_tools (c : EnvironmentContext) : Bool :=
  c.env_type == .blueprint || c.env_type == .mixed || c.env_type == .empty

/-- `environment_detector.should_enable_dapp_tools`. -/
def should_enable_dapp_tools (c : EnvironmentContext) : Bool :=
  c.env_type == .dapp || c.env_type == .mixed || c.env_type == .empty

-- ===== concrete example inputs used by the theorems =====

/-- A blueprint source that is valid in every respect except for a direct
dict assignment `self.balances = {}` to a container field. -/
def counterWithContainer : String :=
  "from hathor.nanocontracts import Blueprint\nfrom hathor.nanocontracts.context import Context\n\nclass Counter(Blueprint):\n    count: int\n\n    @public\n    def initialize(self, ctx: Context) -> None:\n        self.count = 0\n        self.balances = \x7b\x7d\n\n    @view\n    def get_count(self) -> int:\n        return self.count\n\n__blueprint__ = Counter\n"

/-- The same blueprint with the container assignment moved onto a comment
line. -/
def counterCommented : String :=
  "from hathor.nanocontracts import Blueprint\nfrom hathor.nanocontracts.context import Context\n\nclass Counter(Blueprint):\n    count: int\n\n    @public\n    def initialize(self, ctx: Context) -> None:\n        self.count = 0\n        # self.balances = \x7b\x7d\n\n    @view\n    def get_count(self) -> int:\n        return self.count\n\n__blueprint__ = Counter\n"

/-- The same blueprint with a list assignment `self.holders = []` as its
only container assignment. -/
def counterWithListContainer : String :=
  "from hathor.nanocontracts import Blueprint\nfrom hathor.nanocontracts.context import Context\n\nclass Counter(Blueprint):\n    count: int\n\n    @public\n    def initialize(self, ctx: Context) -> None:\n        self.count = 0\n        self.holders = []\n\n    @view\n    def get_count(self) -> int:\n        return self.count\n\n__blueprint__ = Counter\n"

/-- The same blueprint with a set assignment `self.seen = set()` as its
only container assignment. -/
def counterWithSetContainer : String :=
  "from hathor.nanocontracts import Blueprint\nfrom hathor.nanocontracts.context import Context\n\nclass Counter(Blueprint):\n    count: int\n\n    @public\n    def initialize(self, ctx: Context) -> None:\n        self.count = 0\n        self.seen = set()\n\n    @view\n    def get_count(self) -> int:\n        return self.count\n\n__blueprint__ = Counter\n"

/-- A syntactically valid blueprint whose only validation findings are the
two soft issues (no `@public`/`@view` method, no `initialize`). -/
def softOnlyCode : String :=
  "from hathor.nanocontracts import Blueprint\n\nclass A(Blueprint):\n    pass\n\n__blueprint__ = A\n"

/-- Parser oracle for source texts on which CPython `compile` succeeds (all
concrete contracts above are valid Python). -/
def pyParseOk : String → Option (Nat × String) :=
  fun _ => none

/-- The per-line search function of `re.compile("foo", re.IGNORECASE)`: for
a pattern with no metacharacters the regex search on a line is exactly
case-insensitive literal containment. -/
def fooRegex : String → Bool :=
  fun line => strContains (pyLower line) "foo"
-- ===== basic lemmas about the helpers =====

theorem hasSub_iff (pat l : List Char) :
    hasSub pat l = true ↔ ∃ a b, l = a ++ pat ++ b := by
  induction l with
  | nil =>
    simp only [hasSub, List.isEmpty_iff]
    constructor
    · rintro rfl; exact ⟨[], [], rfl⟩
    · rintro ⟨a, b, h⟩
      rcases List.append_eq_nil.mp h.symm with ⟨h1, h2⟩
      exact (List.append_eq_nil.mp h1).2
  | cons c rest ih =>
    simp only [hasSub, Bool.or_eq_true, List.isPrefixOf_iff_prefix, ih]
    constructor
    · rintro (⟨t, ht⟩ | ⟨a, b, rfl⟩)
      · exact ⟨[], t, by simp [← ht]⟩
      · exact ⟨c :: a, b, by simp⟩
    · rintro ⟨a, b, h⟩
      cases a with
      | nil => exact Or.inl ⟨b, by simpa using h.symm⟩
      | cons a0 a' =>
        simp only [List.cons_append, List.cons.injEq] at h
        exact Or.inr ⟨a', b, h.2⟩

theorem strContains_iff (s pat : String) :
    strContains s pat = true ↔ ∃ a b, s.data = a ++ pat.data ++ b := by
  exact hasSub_iff pat.data s.data

theorem strContains_append_left {a pat : String} (b : String)
    (h : strContains a pat = true) : strContains (a ++ b) pat = true := by
  rcases (strContains_iff a pat).mp h with ⟨x, y, hxy⟩
  exact (strContains_iff (a ++ b) pat).mpr ⟨x, y ++ b.data, by simp [hxy]⟩

theorem strContains_append_right {b pat : String} (a : String)
    (h : strContains b pat = true) : strContains (a ++ b) pat = true := by
  rcases (strContains_iff b pat).mp h with ⟨x, y, hxy⟩
  exact (strContains_iff (a ++ b) pat).mpr ⟨a.data ++ x, y, by simp [hxy]⟩

theorem strContains_trans {s t pat : String} (h1 : strContains s t = true)
    (h2 : strContains t pat = true) : strContains s pat = true := by
  rcases (strContains_iff s t).mp h1 with ⟨x, y, hxy⟩
  rcases (strContains_iff t pat).mp h2 with ⟨u, v, huv⟩
  exact (strContains_iff s pat).mpr ⟨x ++ u, v ++ y, by simp [hxy, huv]⟩

theorem pyJoin_mem_decomp {x : String} (sep : String) :
    ∀ {l : List String}, x ∈ l → ∃ a b, pyJoin sep l = a ++ x ++ b := by
  intro l
  induction l with
  | nil => intro h; cases h
  | cons s rest ih =>
    intro h
    cases rest with
    | nil =>
      rcases List.mem_cons.mp h with rfl | h2
      · exact ⟨"", "", by simp [pyJoin]⟩
      · cases h2
    | cons s1 rest1 =>
      rcases List.mem_cons.mp h with rfl | h
      · exact ⟨"", sep ++ pyJoin sep (s1 :: rest1), by simp [pyJoin, String.append_assoc]⟩
      · rcases ih h with ⟨a, b, hab⟩
        exact ⟨s ++ sep ++ a, b, by simp [pyJoin, hab, String.append_assoc]⟩

theorem strContains_of_mem_pyJoin {x : String} {l : List String} (sep : String)
    (h : x ∈ l) : strContains (pyJoin sep l) x = true := by
  rcases pyJoin_mem_decomp sep h with ⟨a, b, hab⟩
  exact (strContains_iff _ _).mpr ⟨a.data, b.data, by simp [hab]⟩

theorem strContains_of_mem_pyListRepr {p : String} {l : List String}
    (h : p ∈ l) : strContains (pyListRepr l) p = true := by
  have h1 : strContains (pyStrRepr p) p = true := by
    exact (strContains_iff _ _).mpr ⟨"\x27".data, "\x27".data, by simp [pyStrRepr]⟩
  have h2 : strContains (pyJoin ", " (l.map pyStrRepr)) p :=
    strContains_trans (strContains_of_mem_pyJoin ", " (List.mem_map_of_mem pyStrRepr h)) h1
  exact strContains_append_left _ (strContains_append_right _ h2)

theorem dictGet_dictSet_self (d : List (String × String)) (k v : String) :
    dictGet (dictSet d k v) k = some v := by
  induction d with
  | nil => simp [dictGet, dictSet]
  | cons e rest ih =>
    by_cases h : e.1 = k
    · simp [dictGet, dictSet, h]
    · simp [dictGet, dictSet, h, ih]

theorem pyStartsWith_slash_append (p : String) :
    pyStartsWith ("/" ++ p) "/" = true := by
  simp [pyStartsWith, List.isPrefixOf_iff_prefix]

theorem normalizePath_startsWith_slash (p : String) :
    pyStartsWith (normalizePath p) "/" = true := by
  unfold normalizePath
  by_cases h : pyStartsWith p "/" = true
  · simp [h]
  · simp [h, pyStartsWith_slash_append]

theorem normalizePath_idem (p : String) :
    normalizePath (normalizePath p) = normalizePath p := by
  unfold normalizePath
  by_cases h : pyStartsWith p "/" = true
  · simp [h]
  · simp [h, pyStartsWith_slash_append]

/-- Two distinct literal prefixes: a string starting with `p1` cannot start
with `p2` when `p2` is not a prefix of `p1` and is at most as long. -/
theorem pyStartsWith_false_of (s p1 p2 : String)
    (h1 : pyStartsWith s p1 = true)
    (hnp : ¬ (p2.data <+: p1.data))
    (hlen : p2.data.length ≤ p1.data.length) :
    pyStartsWith s p2 = false := by
  by_contra h
  have h2 : pyStartsWith s p2 = true := by
    cases hb : pyStartsWith s p2
    · exact absurd hb h
    · rfl
  have hp1 : p1.data <+: s.data := List.isPrefixOf_iff_prefix.mp h1
  have hp2 : p2.data <+: s.data := List.isPrefixOf_iff_prefix.mp h2
  rcases List.prefix_or_prefix_of_prefix hp1 hp2 with hc | hc
  · have : p1.data = p2.data := hc.eq_of_length_le hlen
    exact hnp (this ▸ List.prefix_refl p1.data)
  · exact hnp hc


theorem pyStartsWith_append_self (a b : String) :
    pyStartsWith (a ++ b) a = true := by
  simp [pyStartsWith, List.isPrefixOf_iff_prefix]

theorem isPrefixOf_cons_ne {a b : Char} (as bs : List Char) (h : ¬ a = b) :
    List.isPrefixOf (a :: as) (b :: bs) = false := by
  simp [List.isPrefixOf, h]

theorem utFlatList_eq (keys : List String) (path : String) :
    utFlatList keys path =
      (keys.filter (fun fp => pyStartsWith fp path)).map
        (fun fp => FileInfo.mk fp (lastComponent fp) "file" none) := by
  induction keys with
  | nil => rfl
  | cons k rest ih =>
    by_cases h : pyStartsWith k path = true <;>
      simp [utFlatList, List.filter_cons, h, ih]

theorem grepFileMatches_file {reC : Option (String → Bool)}
    {pattern fp content : String} {m : GrepMatch}
    (h : m ∈ grepFileMatches reC pattern fp content) : m.file = fp := by
  simp only [grepFileMatches, List.mem_filterMap] at h
  rcases h with ⟨ie, _, hif⟩
  by_cases hm : grepLineMatch reC pattern ie.2 = true
  · rw [if_pos hm] at hif
    cases hif
    rfl
  · rw [if_neg hm] at hif
    cases hif

theorem concatMatches_mem {f : String → List GrepMatch} {m : GrepMatch} :
    ∀ {l : List String}, m ∈ concatMatches f l ↔ ∃ fp ∈ l, m ∈ f fp := by
  intro l
  induction l with
  | nil => simp [concatMatches]
  | cons a rest ih => simp [concatMatches, ih]

theorem validationReport_ne_pass (fp fp2 : String) (issues : List String) :
    validationReport fp issues ≠ validationPass fp2 := by
  intro h
  have h1 : pyStartsWith (validationReport fp issues) uMag = true := by
    simp only [validationReport, String.append_assoc]
    exact pyStartsWith_append_self uMag _
  have h2 : pyStartsWith (validationPass fp2) uMag = false := by
    simp only [validationPass, String.append_assoc, pyStartsWith, String.data_append]
    show List.isPrefixOf ('ü' :: 'î' :: 'ç' :: []) ('‚' :: _) = false
    exact isPrefixOf_cons_ne _ _ (by decide)
  rw [h] at h1
  rw [h1] at h2
  cases h2

-- ===== claim theorems =====

/-- C5: for every message string, `detect_environment` on an empty file set
returns the EMPTY verdict at confidence 0.95 (with no matched files and the
"No files in project" reason); the Tier-3 message-intent analysis is never
reached, however strong the keyword signal in the message. -/
theorem c5_empty_shortcircuit (message : String) :
    detect_environment [] message =
      ⟨EnvironmentType.empty, 0.95, [], [], "No files in project"⟩ := by
  rfl

/-- C6: Tier-1 MIXED - for every file set containing at least one Tier-1
blueprint path (under `/blueprints/` or `/contracts/` with the `.py`
suffix) and at least one path under `/dapp/`, `detect_environment` returns
MIXED at confidence 0.95, regardless of the relative counts and of the
message. -/
theorem c6_tier1_mixed (files : List (String × String)) (message : String)
    (hb : ∃ p ∈ files.map Prod.fst,
      ((pyStartsWith p "/blueprints/" || pyStartsWith p "/contracts/") &&
        pyEndsWith p ".py") = true)
    (hd : ∃ p ∈ files.map Prod.fst, pyStartsWith p "/dapp/" = true) :
    (detect_environment files message).env_type = EnvironmentType.mixed ∧
    (detect_environment files message).confidence = 0.95 := by
  have h1 : 0 < (pathBlueprintFiles files).length := by
    rcases hb with ⟨p, hp, hpred⟩
    exact List.length_pos.mpr
      (List.ne_nil_of_mem (List.mem_filter.mpr ⟨hp, hpred⟩))
  have h2 : 0 < (pathDappFiles files).length := by
    rcases hd with ⟨p, hp, hpred⟩
    exact List.length_pos.mpr
      (List.ne_nil_of_mem (List.mem_filter.mpr ⟨hp, hpred⟩))
  unfold detect_environment
  rw [if_pos ⟨h1, h2⟩]
  exact ⟨rfl, rfl⟩

/-- C6 witness: a one-blueprint one-dApp project is MIXED at 0.95. -/
theorem c6_tier1_mixed_witness :
    (detect_environment [("/blueprints/a.py", ""), ("/dapp/b.tsx", "")] "").env_type =
        EnvironmentType.mixed ∧
    (detect_environment [("/blueprints/a.py", ""), ("/dapp/b.tsx", "")] "").confidence = 0.95 :=
  c6_tier1_mixed [("/blueprints/a.py", ""), ("/dapp/b.tsx", "")] ""
    (by decide) (by decide)

/-- C7: for every router state, every path outside all configured roots and
every content, `write_file` leaves the whole state (file store included)
unchanged and returns a rejection message mentioning the four legal
prefixes. -/
theorem c7_write_rejection (ut : UnifiedTools) (path content : String)
    (h1 : pyStartsWith (normalizePath path) "/dapp/" = false)
    (h2 : pyStartsWith (normalizePath path) "/blueprints/" = false)
    (h3 : pyStartsWith (normalizePath path) "/contracts/" = false)
    (h4 : pyStartsWith (normalizePath path) "/tests/" = false) :
    ut.write_file path content = (ut, some (utInvalidPathMsg (normalizePath path))) ∧
    strContains (utInvalidPathMsg (normalizePath path)) "/blueprints/" = true ∧
    strContains (utInvalidPathMsg (normalizePath path)) "/contracts/" = true ∧
    strContains (utInvalidPathMsg (normalizePath path)) "/tests/" = true ∧
    strContains (utInvalidPathMsg (normalizePath path)) "/dapp/" = true := by
  refine ⟨?_, ?_, ?_, ?_, ?_⟩
  · simp [UnifiedTools.write_file, h1, h2, h3, h4]
  all_goals exact strContains_append_right _ (by decide)

/-- C7 witness: writing `/etc/passwd` is rejected with the store intact. -/
theorem c7_write_rejection_witness :
    (UnifiedTools.init [("/blueprints/a.py", "c")] true false).write_file "/etc/passwd" "x" =
      (UnifiedTools.init [("/blueprints/a.py", "c")] true false,
        some (utInvalidPathMsg (normalizePath "/etc/passwd"))) ∧
    strContains (utInvalidPathMsg (normalizePath "/etc/passwd")) "/blueprints/" = true ∧
    strContains (utInvalidPathMsg (normalizePath "/etc/passwd")) "/contracts/" = true ∧
    strContains (utInvalidPathMsg (normalizePath "/etc/passwd")) "/tests/" = true ∧
    strContains (utInvalidPathMsg (normalizePath "/etc/passwd")) "/dapp/" = true :=
  c7_write_rejection (UnifiedTools.init [("/blueprints/a.py", "c")] true false)
    "/etc/passwd" "x" (by decide) (by decide) (by decide) (by decide)

/-- C10: with dApp tools disabled the router has no FileTools instance and
`list_files` is the flat fallback: one `type = "file"` entry (no size) per
stored path that string-prefix matches the argument, in store order, with no
directory entries and no directories-first reordering; with dApp tools
enabled `list_files` is the directory-partitioned `FileTools.list_files`
view. -/
theorem c10_listfiles_fallback (pf : List (String × String)) (eb : Bool) (path : String) :
    (UnifiedTools.init pf eb false).list_files path =
      ((dictKeys pf).filter (fun fp => pyStartsWith fp path)).map
        (fun fp => FileInfo.mk fp (lastComponent fp) "file" none) ∧
    (UnifiedTools.init pf eb true).list_files path = FileTools.list_files ⟨pf⟩ path := by
  constructor
  · simp only [UnifiedTools.list_files, UnifiedTools.init, if_neg (by decide : ¬ false = true)]
    exact utFlatList_eq (dictKeys pf) path
  · rfl

/-- C1 counterexample: on a router with both tool sets enabled and an empty
store, `write_file("/dapp/a.tsx", "hello")` reports success ("Created ... (5
chars)") but the subsequent `read_file("/dapp/a.tsx")` on the resulting
router returns the not-found message, not `"hello"`: the round-trip fails
for `/dapp/` paths because the write lands only in the internal FileTools
copy while `read_file` consults `project_files`. -/
theorem c1_dapp_roundtrip_counterexample :
    (((UnifiedTools.init [] true true).write_file "/dapp/a.tsx" "hello").2 =
      some "Created /dapp/a.tsx (5 chars)") ∧
    (((UnifiedTools.init [] true true).write_file "/dapp/a.tsx" "hello").1.read_file
        "/dapp/a.tsx" = uCross ++ " File not found: /dapp/a.tsx") ∧
    (((UnifiedTools.init [] true true).write_file "/dapp/a.tsx" "hello").1.read_file
        "/dapp/a.tsx" ≠ "hello") := by
  exact ⟨by decide, by decide, by decide⟩

/-- C1 amended: the write/read round-trip holds on the router for every path
under the blueprint roots `/blueprints/`, `/contracts/`, `/tests/` whenever
blueprint tools are enabled (in any tool-enablement configuration); for
`/dapp/` paths with dApp tools enabled, the write is applied only to the
internal FileTools copy and the router's `project_files` - the store
`read_file` consults - is left unchanged. -/
theorem c1_roundtrip_amended (ut : UnifiedTools) (pf : List (String × String))
    (eb : Bool) (path content : String) :
    (ut.enable_blueprint_tools = true →
      (pyStartsWith (normalizePath path) "/blueprints/" = true ∨
       pyStartsWith (normalizePath path) "/contracts/" = true ∨
       pyStartsWith (normalizePath path) "/tests/" = true) →
      (ut.write_file path content).1.read_file path = content) ∧
    (pyStartsWith (normalizePath path) "/dapp/" = true →
      ((UnifiedTools.init pf eb true).write_file path content).1 =
        ⟨pf, eb, true, some ⟨dictSet pf (normalizePath path) content⟩⟩) := by
  constructor
  · intro hbt hroot
    have hd : pyStartsWith (normalizePath path) "/dapp/" = false := by
      rcases hroot with h | h | h
      · exact pyStartsWith_false_of _ _ _ h (by decide) (by decide)
      · exact pyStartsWith_false_of _ _ _ h (by decide) (by decide)
      · exact pyStartsWith_false_of _ _ _ h (by decide) (by decide)
    have hor : (pyStartsWith (normalizePath path) "/blueprints/" ||
        pyStartsWith (normalizePath path) "/contracts/" ||
        pyStartsWith (normalizePath path) "/tests/") = true := by
      rcases hroot with h | h | h <;> simp [h]
    simp [UnifiedTools.write_file, hd, hor, hbt, UnifiedTools.read_file,
      dictGet_dictSet_self]
  · intro hd
    simp [UnifiedTools.write_file, UnifiedTools.init, hd, FileTools.write_file,
      normalizePath_idem]

/-- C1 amended witness: a blueprint write/read round-trip returns the
content, and a `/dapp/` write updates only the FileTools copy. -/
theorem c1_roundtrip_amended_witness :
    (((UnifiedTools.init [] true false).write_file "/blueprints/a.py" "hi").1.read_file
        "/blueprints/a.py" = "hi") ∧
    (((UnifiedTools.init [] true true).write_file "/dapp/a.tsx" "x").1 =
      ⟨[], true, true, some ⟨dictSet [] (normalizePath "/dapp/a.tsx") "x"⟩⟩) :=
  ⟨(c1_roundtrip_amended (UnifiedTools.init [] true false) [] true "/blueprints/a.py" "hi").1
      (by decide) (Or.inl (by decide)),
   (c1_roundtrip_amended (UnifiedTools.init [] true true) [] true "/dapp/a.tsx" "x").2
      (by decide)⟩

/-- C2 counterexample: on the router, reading `/blueprints/counter.py` when
the store holds `/blueprints/Counter.py` does not perform the claimed
case-insensitive basename fallback and does not enumerate available paths:
it returns a bare not-found message containing neither the stored content
nor the stored path. -/
theorem c2_readfile_counterexample :
    (UnifiedTools.init [("/blueprints/Counter.py", "hello-world-42")] true false).read_file
        "/blueprints/counter.py" = uCross ++ " File not found: /blueprints/counter.py" ∧
    strContains
      ((UnifiedTools.init [("/blueprints/Counter.py", "hello-world-42")] true false).read_file
        "/blueprints/counter.py") "hello-world-42" = false ∧
    strContains
      ((UnifiedTools.init [("/blueprints/Counter.py", "hello-world-42")] true false).read_file
        "/blueprints/counter.py") "/blueprints/Counter.py" = false := by
  exact ⟨by decide, by decide, by decide⟩

/-- C2 amended: the exact-first/fallback/NotFound behaviour splits over the
two layers.  The router's `read_file` does the exact lookup first, then a
case-sensitive fallback to the first stored path ending with the requested
basename (prefixing only a "Found at" warning), and on total miss returns a
not-found message without enumerating paths.  The case-insensitive
basename-only fallback whose warning names the actual path and instructs
using it for subsequent writes, and the NotFound error enumerating all
available paths, are the behaviour of the underlying `FileTools.read_file`. -/
theorem c2_readfile_amended :
    (∀ (ut : UnifiedTools) (path c : String),
      dictGet ut.project_files (normalizePath path) = some c →
      ut.read_file path = c) ∧
    (∀ (ut : UnifiedTools) (path : String) (fc : String × String),
      dictGet ut.project_files (normalizePath path) = none →
      ut.project_files.find?
        (fun e => pyEndsWith e.1 (lastComponent (normalizePath path))) = some fc →
      ut.read_file path = uWarn ++ " Found at " ++ fc.1 ++ ":\n\n" ++ fc.2) ∧
    (∀ (ut : UnifiedTools) (path : String),
      dictGet ut.project_files (normalizePath path) = none →
      ut.project_files.find?
        (fun e => pyEndsWith e.1 (lastComponent (normalizePath path))) = none →
      ut.read_file path = uCross ++ " File not found: " ++ normalizePath path) ∧
    (∀ (ft : FileTools) (path : String) (fc : String × String),
      dictGet ft.files (normalizePath path) = none →
      ft.files.find?
        (fun e => pyLower (lastComponent e.1) =
          pyLower (lastComponent (normalizePath path))) = some fc →
      ft.read_file path = .ok (ftFoundWarning fc.1 (normalizePath path) ++ fc.2) ∧
      strContains (ftFoundWarning fc.1 (normalizePath path))
        ("write_file(\x27" ++ fc.1 ++ "\x27, content)") = true) ∧
    (∀ (ft : FileTools) (path : String),
      dictGet ft.files (normalizePath path) = none →
      ft.files.find?
        (fun e => pyLower (lastComponent e.1) =
          pyLower (lastComponent (normalizePath path))) = none →
      ft.read_file path = .error (ftNotFoundMsg (normalizePath path) (dictKeys ft.files)) ∧
      ∀ p ∈ dictKeys ft.files,
        strContains (ftNotFoundMsg (normalizePath path) (dictKeys ft.files)) p = true) := by
  refine ⟨?_, ?_, ?_, ?_, ?_⟩
  · intro ut path c h
    simp [UnifiedTools.read_file, h]
  · intro ut path fc h1 h2
    simp [UnifiedTools.read_file, h1, h2]
  · intro ut path h1 h2
    simp [UnifiedTools.read_file, h1, h2]
  · intro ft path fc h1 h2
    refine ⟨by simp [FileTools.read_file, h1, h2], ?_⟩
    refine (strContains_iff _ _).mpr
      ⟨aWarn.data ++ (" NOTE: File found at \x27").data ++ fc.1.data ++
        ("\x27 (you searched for \x27").data ++ (normalizePath path).data ++
        ("\x27)\n").data ++ ("When modifying this file, use: ").data,
       ("\n").data ++ ("DO NOT use: write_file(\x27").data ++
        (normalizePath path).data ++ ("\x27, content)\n\n").data, ?_⟩
    have hs1 : ("When modifying this file, use: write_file(\x27" : String).data =
        ("When modifying this file, use: " : String).data ++
        ("write_file(\x27" : String).data := by decide
    have hs2 : ("\x27, content)\n" : String).data =
        ("\x27, content)" : String).data ++ ("\n" : String).data := by decide
    simp [ftFoundWarning, String.data_append, hs1, hs2]
  · intro ft path h1 h2
    refine ⟨by simp [FileTools.read_file, h1, h2], ?_⟩
    intro p hp
    exact strContains_append_right _ (strContains_of_mem_pyListRepr hp)

/-- C2 amended witness: exact hit on the router; case-insensitive basename
fallback with instructive warning and total-miss enumeration on FileTools. -/
theorem c2_readfile_amended_witness :
    ((UnifiedTools.init [("/blueprints/Counter.py", "x")] true false).read_file
        "/blueprints/Counter.py" = "x") ∧
    ((FileTools.mk [("/blueprints/Counter.py", "x")]).read_file "counter.py" =
        .ok (ftFoundWarning "/blueprints/Counter.py" (normalizePath "counter.py") ++ "x") ∧
      strContains (ftFoundWarning "/blueprints/Counter.py" (normalizePath "counter.py"))
        ("write_file(\x27" ++ "/blueprints/Counter.py" ++ "\x27, content)") = true) ∧
    ((FileTools.mk [("/blueprints/Counter.py", "x")]).read_file "/nope.py" =
        .error (ftNotFoundMsg (normalizePath "/nope.py")
          (dictKeys [("/blueprints/Counter.py", "x")])) ∧
      ∀ p ∈ dictKeys [("/blueprints/Counter.py", "x")],
        strContains (ftNotFoundMsg (normalizePath "/nope.py")
          (dictKeys [("/blueprints/Counter.py", "x")])) p = true) :=
  ⟨c2_readfile_amended.1 _ "/blueprints/Counter.py" "x" (by decide),
   c2_readfile_amended.2.2.2.1 _ "counter.py" ("/blueprints/Counter.py", "x")
     (by decide) (by decide),
   c2_readfile_amended.2.2.2.2 _ "/nope.py" (by decide) (by decide)⟩

set_option maxRecDepth 40000 in
/-- C3 counterexample: a blueprint whose validation flags two soft issues
(so the report is not the pass confirmation) still gets the "ready for
compilation" confirmation from `compile_blueprint`, because the gate tests
only for the hard-failure marker. -/
theorem c3_compile_counterexample :
    (UnifiedTools.init [("/blueprints/Soft.py", softOnlyCode)] true false).validate_blueprint
        pyParseOk "/blueprints/Soft.py" =
      validationReport "/blueprints/Soft.py"
        [uWarn ++ " No @public or @view methods found",
         uWarn ++ " No initialize() method found"] ∧
    (UnifiedTools.init [("/blueprints/Soft.py", softOnlyCode)] true false).compile_blueprint
        pyParseOk "/blueprints/Soft.py" = compileReady "/blueprints/Soft.py" := by
  exact ⟨by decide, by decide⟩

/-- C3 amended: `compile_blueprint` re-runs `validate_blueprint` and returns
the validation report behind the "cannot compile" framing exactly when the
report contains the hard-failure marker; otherwise - including for reports
that flag only soft issues - it returns the "ready, trigger compilation via
the external UI" confirmation. -/
theorem c3_compile_amended (ut : UnifiedTools)
    (pyParse : String → Option (Nat × String)) (file_path : String) :
    (strContains (ut.validate_blueprint pyParse file_path) uCross = true →
      ut.compile_blueprint pyParse file_path =
        "Cannot compile due to validation errors:\n\n" ++
        ut.validate_blueprint pyParse file_path ++
        "\n\nFix these issues first, then try compiling again.") ∧
    (strContains (ut.validate_blueprint pyParse file_path) uCross = false →
      ut.compile_blueprint pyParse file_path = compileReady file_path) := by
  constructor
  · intro h
    simp [UnifiedTools.compile_blueprint, h]
  · intro h
    simp [UnifiedTools.compile_blueprint, h]

/-- C3 amended witness: a hard failure (no class, no export) is framed as
"cannot compile"; a soft-only report compiles "ready". -/
theorem c3_compile_amended_witness :
    ((UnifiedTools.init [("/blueprints/Hard.py", "x = 1\n")] true false).compile_blueprint
        pyParseOk "/blueprints/Hard.py" =
      "Cannot compile due to validation errors:\n\n" ++
      (UnifiedTools.init [("/blueprints/Hard.py", "x = 1\n")] true false).validate_blueprint
        pyParseOk "/blueprints/Hard.py" ++
      "\n\nFix these issues first, then try compiling again.") ∧
    ((UnifiedTools.init [("/blueprints/Soft.py", softOnlyCode)] true false).compile_blueprint
        pyParseOk "/blueprints/Soft.py" = compileReady "/blueprints/Soft.py") :=
  ⟨(c3_compile_amended (UnifiedTools.init [("/blueprints/Hard.py", "x = 1\n")] true false)
      pyParseOk "/blueprints/Hard.py").1 (by decide),
   (c3_compile_amended (UnifiedTools.init [("/blueprints/Soft.py", softOnlyCode)] true false)
      pyParseOk "/blueprints/Soft.py").2 (by decide)⟩

theorem strContains_self (s : String) : strContains s s = true :=
  (strContains_iff s s).mpr ⟨[], [], by simp⟩

set_option maxRecDepth 40000 in
/-- C4: whenever a blueprint file under `/blueprints/` or `/contracts/`
parses and contains a non-comment line matching any of the three
statement-start container patterns (`self.<name> = \x7b\x7d`, `= []`,
`= set()`), `validate_blueprint` returns a report containing the critical
container-assignment issue and does not return the pass confirmation;
whenever, for each of the three patterns, every matching line is a comment
line, no container issue is collected at all; and on the concrete variant
where the container assignment sits on a comment line, full validation
passes. -/
theorem c4_container_detection (ut : UnifiedTools)
    (pyParse : String → Option (Nat × String)) (file_path code : String)
    (close : List Char)
    (hclose : close = dictClose ∨ close = listClose ∨ close = setClose)
    (hpath : (pyStartsWith file_path "/blueprints/" ||
      pyStartsWith file_path "/contracts/") = true)
    (hfile : dictGet ut.project_files file_path = some code)
    (hsyn : pyParse code = none)
    (hline : ∃ line ∈ pySplit '\n' code,
      (!(pyStartsWith (pyStrip line) "#") && containerMatch close line) = true) :
    strContains (ut.validate_blueprint pyParse file_path)
      "CRITICAL: Container field assignment detected" = true ∧
    ut.validate_blueprint pyParse file_path ≠ validationPass file_path ∧
    (∀ code2 : String,
      (∀ close2, (close2 = dictClose ∨ close2 = listClose ∨ close2 = setClose) →
        ∀ line ∈ pySplit '\n' code2, containerMatch close2 line = true →
          pyStartsWith (pyStrip line) "#" = true) →
      containerPatternIssues code2 = []) ∧
    (UnifiedTools.init [("/blueprints/Counter.py", counterCommented)]
        true false).validate_blueprint pyParseOk "/blueprints/Counter.py" =
      validationPass "/blueprints/Counter.py" := by
  have hfind : (firstContainerLine close code).isSome := by
    rw [firstContainerLine]
    exact List.find?_isSome.mpr hline
  obtain ⟨l0, hl0⟩ := Option.isSome_iff_exists.mp hfind
  have hmem : containerIssue (pyStrip l0) ∈ blueprintIssues code := by
    unfold blueprintIssues containerPatternIssues
    rcases hclose with rfl | rfl | rfl
    · rw [hl0]
      simp
    · rw [hl0]
      simp
    · rw [hl0]
      simp
  have hne : (blueprintIssues code).isEmpty = false :=
    List.isEmpty_eq_false.mpr (List.ne_nil_of_mem hmem)
  have hval : ut.validate_blueprint pyParse file_path =
      validationReport file_path (blueprintIssues code) := by
    simp [UnifiedTools.validate_blueprint, hpath, hfile, hsyn, hne]
  have hissue : strContains (containerIssue (pyStrip l0))
      "CRITICAL: Container field assignment detected" = true := by
    unfold containerIssue
    simp only [String.append_assoc]
    exact strContains_append_right _ (strContains_append_left _ (by decide))
  have hjoin : strContains
      (pyJoin "\n" ((blueprintIssues code).map (fun i => "  " ++ i)))
      (containerIssue (pyStrip l0)) = true := by
    refine strContains_trans
      (strContains_of_mem_pyJoin "\n" (List.mem_map_of_mem _ hmem)) ?_
    exact strContains_append_right "  " (strContains_self _)
  have hcomment : ∀ code2 : String,
      (∀ close2, (close2 = dictClose ∨ close2 = listClose ∨ close2 = setClose) →
        ∀ line ∈ pySplit '\n' code2, containerMatch close2 line = true →
          pyStartsWith (pyStrip line) "#" = true) →
      containerPatternIssues code2 = [] := by
    intro code2 hc
    have hnone : ∀ close2,
        (close2 = dictClose ∨ close2 = listClose ∨ close2 = setClose) →
        firstContainerLine close2 code2 = none := by
      intro close2 hc2
      rw [firstContainerLine, List.find?_eq_none]
      intro line hlmem hp
      rw [Bool.and_eq_true] at hp
      have hcomm := hc close2 hc2 line hlmem hp.2
      rw [hcomm] at hp
      exact absurd hp.1 (by decide)
    unfold containerPatternIssues
    rw [hnone dictClose (Or.inl rfl), hnone listClose (Or.inr (Or.inl rfl)),
      hnone setClose (Or.inr (Or.inr rfl))]
    rfl
  refine ⟨?_, ?_, hcomment, by decide⟩
  · rw [hval]
    unfold validationReport
    simp only [String.append_assoc]
    refine strContains_trans ?_ hissue
    refine strContains_append_right _ ?_
    refine strContains_append_right _ ?_
    refine strContains_append_right _ ?_
    refine strContains_append_right _ ?_
    exact strContains_append_left _ hjoin
  · rw [hval]
    exact validationReport_ne_pass _ _ _

set_option maxRecDepth 40000 in
/-- C4 witness: Counter contracts with `self.balances = \x7b\x7d`,
`self.holders = []` and `self.seen = set()` are each flagged critical and do
not pass; the commented variant passes. -/
theorem c4_container_detection_witness :
    (strContains
      ((UnifiedTools.init [("/blueprints/Counter.py", counterWithContainer)]
          true false).validate_blueprint pyParseOk "/blueprints/Counter.py")
      "CRITICAL: Container field assignment detected" = true ∧
     (UnifiedTools.init [("/blueprints/Counter.py", counterWithContainer)]
        true false).validate_blueprint pyParseOk "/blueprints/Counter.py" ≠
      validationPass "/blueprints/Counter.py") ∧
    (strContains
      ((UnifiedTools.init [("/blueprints/Counter.py", counterWithListContainer)]
          true false).validate_blueprint pyParseOk "/blueprints/Counter.py")
      "CRITICAL: Container field assignment detected" = true ∧
     (UnifiedTools.init [("/blueprints/Counter.py", counterWithListContainer)]
        true false).validate_blueprint pyParseOk "/blueprints/Counter.py" ≠
      validationPass "/blueprints/Counter.py") ∧
    (strContains
      ((UnifiedTools.init [("/blueprints/Counter.py", counterWithSetContainer)]
          true false).validate_blueprint pyParseOk "/blueprints/Counter.py")
      "CRITICAL: Container field assignment detected" = true ∧
     (UnifiedTools.init [("/blueprints/Counter.py", counterWithSetContainer)]
        true false).validate_blueprint pyParseOk "/blueprints/Counter.py" ≠
      validationPass "/blueprints/Counter.py") ∧
    (UnifiedTools.init [("/blueprints/Counter.py", counterCommented)]
        true false).validate_blueprint pyParseOk "/blueprints/Counter.py" =
      validationPass "/blueprints/Counter.py" :=
  have hd := c4_container_detection
    (UnifiedTools.init [("/blueprints/Counter.py", counterWithContainer)] true false)
    pyParseOk "/blueprints/Counter.py" counterWithContainer dictClose (Or.inl rfl)
    (by decide) (by decide) rfl (by decide)
  have hl := c4_container_detection
    (UnifiedTools.init [("/blueprints/Counter.py", counterWithListContainer)] true false)
    pyParseOk "/blueprints/Counter.py" counterWithListContainer listClose
    (Or.inr (Or.inl rfl)) (by decide) (by decide) rfl (by decide)
  have hs := c4_container_detection
    (UnifiedTools.init [("/blueprints/Counter.py", counterWithSetContainer)] true false)
    pyParseOk "/blueprints/Counter.py" counterWithSetContainer setClose
    (Or.inr (Or.inr rfl)) (by decide) (by decide) rfl (by decide)
  ⟨⟨hd.1, hd.2.1⟩, ⟨hl.1, hl.2.1⟩, ⟨hs.1, hs.2.1⟩, hd.2.2.2⟩

/-- C8: whenever Tier-3 is reached (no Tier-1 path match, nonempty file set,
no Tier-2 content indicator, nonempty message), a message matching at least
one blueprint keyword and at least one dApp keyword yields MIXED at 0.70
regardless of the relative counts, and a single-category 0.70 verdict
(BLUEPRINT or DAPP) occurs exactly when the other side has zero matches. -/
theorem c8_tier3_tie (files : List (String × String)) (message : String)
    (h1 : pathBlueprintFiles files = [])
    (h2 : pathDappFiles files = [])
    (h3 : files ≠ [])
    (h4 : contentBlueprintCount files = 0)
    (h5 : contentDappCount files = 0)
    (h6 : message ≠ "") :
    (0 < msgBlueprintCount (pyLower message) →
     0 < msgDappCount (pyLower message) →
      (detect_environment files message).env_type = EnvironmentType.mixed ∧
      (detect_environment files message).confidence = 0.70) ∧
    ((detect_environment files message).env_type = EnvironmentType.blueprint ∧
        (detect_environment files message).confidence = 0.70 ↔
      0 < msgBlueprintCount (pyLower message) ∧ msgDappCount (pyLower message) = 0) ∧
    ((detect_environment files message).env_type = EnvironmentType.dapp ∧
        (detect_environment files message).confidence = 0.70 ↔
      0 < msgDappCount (pyLower message) ∧ msgBlueprintCount (pyLower message) = 0) := by
  have he : files.isEmpty = false := List.isEmpty_eq_false.mpr h3
  by_cases hb : 0 < msgBlueprintCount (pyLower message)
  · by_cases hd : 0 < msgDappCount (pyLower message)
    · have hde : (detect_environment files message).env_type = EnvironmentType.mixed ∧
          (detect_environment files message).confidence = 0.70 := by
        simp [detect_environment, h1, h2, he, h4, h5, h6, hb, hd]
      refine ⟨fun _ _ => hde, ⟨?_, ?_⟩, ⟨?_, ?_⟩⟩
      · rintro ⟨hh, -⟩
        rw [hde.1] at hh
        cases hh
      · rintro ⟨-, hzero⟩
        omega
      · rintro ⟨hh, -⟩
        rw [hde.1] at hh
        cases hh
      · rintro ⟨-, hzero⟩
        omega
    · have hd0 : msgDappCount (pyLower message) = 0 := by omega
      have hde : (detect_environment files message).env_type = EnvironmentType.blueprint ∧
          (detect_environment files message).confidence = 0.70 := by
        simp [detect_environment, h1, h2, he, h4, h5, h6, hb, hd0]
      refine ⟨fun _ hdd => absurd hdd hd, ⟨fun _ => ⟨hb, hd0⟩, fun _ => hde⟩, ⟨?_, ?_⟩⟩
      · rintro ⟨hh, -⟩
        rw [hde.1] at hh
        cases hh
      · rintro ⟨hdd, -⟩
        omega
  · have hb0 : msgBlueprintCount (pyLower message) = 0 := by omega
    by_cases hd : 0 < msgDappCount (pyLower message)
    · have hde : (detect_environment files message).env_type = EnvironmentType.dapp ∧
          (detect_environment files message).confidence = 0.70 := by
        simp [detect_environment, h1, h2, he, h4, h5, h6, hb0, hd]
      refine ⟨fun hbb _ => absurd hbb hb, ⟨?_, ?_⟩, ⟨fun _ => ⟨hd, hb0⟩, fun _ => hde⟩⟩
      · rintro ⟨hh, -⟩
        rw [hde.1] at hh
        cases hh
      · rintro ⟨hbb, -⟩
        omega
    · have hd0 : msgDappCount (pyLower message) = 0 := by omega
      have hde : (detect_environment files message).env_type = EnvironmentType.empty ∧
          (detect_environment files message).confidence = 0.50 := by
        simp [detect_environment, h1, h2, he, h4, h5, h6, hb0, hd0]
      refine ⟨fun hbb _ => absurd hbb hb, ⟨?_, ?_⟩, ⟨?_, ?_⟩⟩
      · rintro ⟨hh, -⟩
        rw [hde.1] at hh
        cases hh
      · rintro ⟨hbb, -⟩
        omega
      · rintro ⟨hh, -⟩
        rw [hde.1] at hh
        cases hh
      · rintro ⟨hdd, -⟩
        omega

/-- C8 witness: one blueprint keyword ("contract") and one dApp keyword
("ui") yield MIXED at 0.70 on a Tier-3 input. -/
theorem c8_tier3_tie_witness :
    (detect_environment [("/x.txt", "plain")] "add a contract ui").env_type =
        EnvironmentType.mixed ∧
    (detect_environment [("/x.txt", "plain")] "add a contract ui").confidence = 0.70 :=
  (c8_tier3_tie [("/x.txt", "plain")] "add a contract ui"
    (by decide) (by decide) (by decide) (by decide) (by decide) (by decide)).1
    (by decide) (by decide)

/-- C9: grep behaviour - (1) results are always capped at 100 matches;
(2) on regex-compile failure (`reC = none`) the search is exactly the
case-insensitive literal substring search; (3) every match comes from the
single named file when the path exactly names a stored file, and otherwise
from a file whose path starts with the prefix (root `/` searching
everything); (4) `grep("foo", "/")` on a store whose single file contains
"Foo" on line 3 returns exactly one match with line number 3. -/
theorem c9_grep_behaviour :
    (∀ (ft : FileTools) (reC : Option (String → Bool)) (pattern path : String),
      (ft.grep reC pattern path).length ≤ 100) ∧
    (∀ (ft : FileTools) (pattern path : String),
      ft.grep none pattern path =
        ft.grep (some (fun line => strContains (pyLower line) (pyLower pattern)))
          pattern path) ∧
    (∀ (ft : FileTools) (reC : Option (String → Bool)) (pattern path : String)
        (m : GrepMatch), m ∈ ft.grep reC pattern path →
      (if dictMem ft.files (normalizePath path) = true then
        m.file = normalizePath path
      else (pyStartsWith m.file (normalizePath path) ||
        (normalizePath path == "/")) = true)) ∧
    ((FileTools.mk [("/dapp/app.tsx", "alpha\nbeta\nFoo bar")]).grep
        (some fooRegex) "foo" "/" =
      [GrepMatch.mk "/dapp/app.tsx" 3 "Foo bar" "foo"]) := by
  refine ⟨?_, ?_, ?_, by decide⟩
  · intro ft reC pattern path
    rw [FileTools.grep]
    exact le_trans (Nat.le_of_eq (List.length_take _ _)) (Nat.min_le_left _ _)
  · intro ft pattern path
    rfl
  · intro ft reC pattern path m hm
    rw [FileTools.grep] at hm
    have hm' := List.take_subset _ _ hm
    rcases concatMatches_mem.mp hm' with ⟨fp, hfp, hmf⟩
    have hfile := grepFileMatches_file hmf
    by_cases hd : dictMem ft.files (normalizePath path) = true
    · rw [if_pos hd]
      rw [if_pos hd] at hfp
      rw [hfile]
      simpa using hfp
    · rw [if_neg hd]
      rw [if_neg hd] at hfp
      rw [hfile]
      exact (List.mem_filter.mp hfp).2

/-- C9 witness: the scope property instantiated at an exact-file search -
the match produced for pattern "bet" in `/dapp/app.tsx` names that file. -/
theorem c9_grep_behaviour_witness :
    (if dictMem [("/dapp/app.tsx", "alpha\nbeta\nFoo bar")]
        (normalizePath "/dapp/app.tsx") = true then
      (GrepMatch.mk "/dapp/app.tsx" 2 "beta" "bet").file = normalizePath "/dapp/app.tsx"
    else (pyStartsWith (GrepMatch.mk "/dapp/app.tsx" 2 "beta" "bet").file
        (normalizePath "/dapp/app.tsx") ||
      (normalizePath "/dapp/app.tsx" == "/")) = true) :=
  c9_grep_behaviour.2.2.1 (FileTools.mk [("/dapp/app.tsx", "alpha\nbeta\nFoo bar")])
    (some (fun l => strContains (pyLower l) "bet")) "bet" "/dapp/app.tsx"
    (GrepMatch.mk "/dapp/app.tsx" 2 "beta" "bet") (by decide)
